import Mathlib

/-!
Verification development for the storage service backend.

The definitions below are a shallow embedding of the file lifecycle
orchestrator (FilesController in src/files/files.controller.ts, latest
iteration), the metadata client (FilesService in src/files/files.service.ts),
the object-store wrapper (MinioService in src/minio/minio.service.ts) and the
actor resolver (AuthGuard in src/auth/auth.guard.ts).  External collaborators
(the Hasura metadata store and the MinIO object store) are modelled as
oracles: lists of rows plus a row-level visibility predicate for Hasura, and
explicit success or failure outcomes for MinIO calls.  Each controller flow is
a pure function that returns its HTTP-level result, the trace of store calls
it issued, and the metadata-store contents after the operation.
-/

namespace StorageService

/-- Bucket row, from storage.buckets (Hasura schema) as fetched by
FilesService.getBucketByName.  Nullable columns become Option. -/
structure Bucket where
  id : String
  name : String
  minUploadSize : Option Nat
  maxUploadSize : Option Nat
  allowedMimeTypes : Option (List String)
  cacheControl : Option String
  downloadExpiration : Option Nat
  presignedUrlsEnabled : Bool
deriving DecidableEq, Repr

/-- File row, from storage.files, together with the joined bucket name
(the `bucket \x7b name \x7d` sub-selection used by getFileMetadata). -/
structure FileRecord where
  id : String
  name : String
  bucketId : String
  bucketName : String
  size : Nat
  mimeType : String
  etag : Option String
  isUploaded : Bool
  uploadedByUserId : Option String
deriving DecidableEq, Repr

/-- Uploaded multipart file as seen by the controller (Multer.File). -/
structure MulterFile where
  originalname : String
  size : Nat
  mimetype : String
deriving DecidableEq, Repr

/-- Request-scoped caller identity (req.hasuraUserId / req.hasuraRoles as set
by the AuthGuard). -/
structure Actor where
  userId : Option String
  roles : List String
deriving DecidableEq, Repr

/-- Error message templates of the controller and service.  Each constructor
stands for one distinct literal template string thrown in the source. -/
inductive ErrMsg where
  /-- No file uploaded. -/
  | noFileUploaded
  /-- File size exceeds maximum allowed size of N bytes. -/
  | sizeExceedsMax (max : Nat)
  /-- File type X is not allowed. -/
  | mimeNotAllowed (mt : String)
  /-- Failed to upload file. -/
  | failedUpload
  /-- File with ID X not found or not accessible. -/
  | fileNotFoundOrNotAccessible (fileId : String)
  /-- File metadata with ID X not found or not accessible for deletion. -/
  | fileNotAccessibleForDeletion (fileId : String)
  /-- Authentication required to delete files. -/
  | authRequiredToDelete
  /-- Failed to delete file. -/
  | failedDelete
  /-- Presigned URLs are not enabled for bucket X or bucket not accessible. -/
  | presignedNotEnabled (bucket : String)
  /-- Failed to generate presigned URL. -/
  | failedPresign
deriving DecidableEq, Repr

/-- HTTP-level exception classes used by the controller. -/
inductive HttpError where
  | badRequest (m : ErrMsg)
  | forbidden (m : ErrMsg)
  | notFound (m : ErrMsg)
  | internal (m : ErrMsg)
deriving DecidableEq, Repr

/-- One outbound call to the metadata store or the object store. -/
inductive Ev where
  | getBucket (name : String)
  | getFile (fileId : String)
  | insertRecord (r : FileRecord)
  | updateRecord (id : String) (etag : String) (size : Nat) (mimeType : String)
      (isUploaded : Bool)
  | deleteRecord (fileId : String)
  | minioPut (bucket : String) (key : String) (size : Nat) (contentType : String)
  | minioGet (bucket : String) (key : String)
  | minioDelete (bucket : String) (key : String)
  | presign (bucket : String) (key : String) (ttl : Option Int)
deriving DecidableEq, Repr

/-- True for calls that reach the object store (MinioService). -/
def Ev.isObjectStoreCall : Ev → Bool
  | .minioPut _ _ _ _ => true
  | .minioGet _ _ => true
  | .minioDelete _ _ => true
  | .presign _ _ _ => true
  | _ => false

/-- True for the metadata insert mutation (createFileMetadata). -/
def Ev.isInsertRecord : Ev → Bool
  | .insertRecord _ => true
  | _ => false

/-- True for the metadata update mutation (updateFileMetadata). -/
def Ev.isUpdateRecord : Ev → Bool
  | .updateRecord _ _ _ _ _ => true
  | _ => false

/-- JS truthiness of the optional uploadedByUserId combined with the
`input.uploadedByUserId || null` expression in createFileMetadata: an
empty-string user id collapses to null. -/
def jsOrNullStr : Option String → Option String
  | some s => if s = "" then none else some s
  | none => none

/-- Guard `bucketMetadata.max_upload_size && file.size > max_upload_size`
from uploadFile: a null or zero max_upload_size is falsy, so it imposes no
limit; otherwise the check is strict inequality. -/
def maxSizeRejects (b : Bucket) (size : Nat) : Bool :=
  match b.maxUploadSize with
  | none => false
  | some m => m != 0 && decide (m < size)

/-- Guard on allowed_mime_types from uploadFile: rejects only when the list
is present, non-empty, and does not contain the candidate type. -/
def mimeRejects (b : Bucket) (mt : String) : Bool :=
  match b.allowedMimeTypes with
  | none => false
  | some l => decide (0 < l.length) && !(l.contains mt)

/-- FilesService.getBucketByName: the storage_buckets query filtered by name;
an empty result is null. -/
def getBucketByName (buckets : List Bucket) (name : String) : Option Bucket :=
  buckets.find? (fun b => b.name = name)

/-- Hasura row-level lookup used by storage_files_by_pk under an actor role:
the row is returned exactly when it exists and the row-level policy makes it
visible to the given actor; otherwise the store answers null. -/
def lookupVisible (records : List FileRecord) (visible : FileRecord → Actor → Bool)
    (fileId : String) (actor : Actor) : Option FileRecord :=
  (records.find? (fun r => r.id = fileId)).filter (fun r => visible r actor)

/-- FilesService.getFileMetadata: a null answer from the store, whether the
row is absent or merely hidden by policy, becomes one NotFoundException with
a message that depends only on the requested id. -/
def getFileMetadata (records : List FileRecord) (visible : FileRecord → Actor → Bool)
    (fileId : String) (actor : Actor) : Except HttpError FileRecord :=
  match lookupVisible records visible fileId actor with
  | none => .error (.notFound (.fileNotFoundOrNotAccessible fileId))
  | some r => .ok r

/-- Environment of one uploadFile request: bucket rows visible in the store,
the id the store assigns to the inserted file row, and the outcome of the
MinIO putObject call (none means the write fails or aborts, in which case
MinioService.uploadFile throws). -/
structure UploadEnv where
  buckets : List Bucket
  createdId : String
  putEtag : Option String
deriving Repr

/-- Result of one uploadFile request: HTTP outcome, trace of store calls, and
file rows in the metadata store afterwards. -/
structure UploadOutcome where
  result : Except HttpError FileRecord
  events : List Ev
  records : List FileRecord
deriving Repr

/-- The file row inserted by createFileMetadata during uploadFile: declared
name, size and MIME type, the owning bucket, is_uploaded = false, no etag
yet, and the caller as uploader (null for anonymous callers). -/
def pendingRecord (env : UploadEnv) (file : MulterFile) (actor : Actor)
    (selectedBucketName : String) (bucket : Bucket) : FileRecord :=
  { id := env.createdId
    name := file.originalname
    bucketId := bucket.id
    bucketName := selectedBucketName
    size := file.size
    mimeType := file.mimetype
    etag := none
    isUploaded := false
    uploadedByUserId := jsOrNullStr actor.userId }

/-- FilesController.uploadFile (latest iteration): validate the multipart
file, fetch the bucket, enforce max size and MIME policy, insert the file row
with is_uploaded = false, stream the bytes to MinIO under the new row id, and
on success flip the row to is_uploaded = true with the confirmed etag.  The
catch block rethrows BadRequest and NotFound unchanged and maps every other
failure to InternalServerError with the failedUpload message. -/
def uploadFile (env : UploadEnv) (records0 : List FileRecord)
    (file? : Option MulterFile) (actor : Actor) (selectedBucketName : String) :
    UploadOutcome :=
  match file? with
  | none => ⟨.error (.badRequest .noFileUploaded), [], records0⟩
  | some file =>
    match getBucketByName env.buckets selectedBucketName with
    | none =>
      ⟨.error (.internal .failedUpload), [.getBucket selectedBucketName], records0⟩
    | some bucket =>
      if maxSizeRejects bucket file.size then
        ⟨.error (.badRequest (.sizeExceedsMax (bucket.maxUploadSize.getD 0))),
          [.getBucket selectedBucketName], records0⟩
      else if mimeRejects bucket file.mimetype then
        ⟨.error (.badRequest (.mimeNotAllowed file.mimetype)),
          [.getBucket selectedBucketName], records0⟩
      else
        let rec0 : FileRecord := pendingRecord env file actor selectedBucketName bucket
        let evs :=
          [Ev.getBucket selectedBucketName, Ev.insertRecord rec0,
           Ev.minioPut selectedBucketName rec0.id file.size file.mimetype]
        match env.putEtag with
        | none => ⟨.error (.internal .failedUpload), evs, records0 ++ [rec0]⟩
        | some etag =>
          let rec1 := { rec0 with etag := some etag, isUploaded := true }
          ⟨.ok rec1,
            evs ++ [Ev.updateRecord rec0.id etag file.size file.mimetype true],
            (records0 ++ [rec0]).map (fun r => if r.id = rec0.id then rec1 else r)⟩

/-- Environment of one deleteFile request: file rows in the store, the
row-level visibility predicate, and the outcomes of the delete mutation
(metaDeleteOk false means delete_storage_files_by_pk answers null, so the
service throws NotFound) and of the MinIO removeObject call (minioDeleteOk
false means MinioService.deleteFile throws). -/
structure DeleteEnv where
  records : List FileRecord
  visible : FileRecord → Actor → Bool
  metaDeleteOk : Bool
  minioDeleteOk : Bool

/-- Result of one deleteFile request. -/
structure DeleteOutcome where
  result : Except HttpError String
  events : List Ev
  records : List FileRecord

/-- FilesController.deleteFile (latest iteration): reject anonymous callers
with Forbidden before touching any store; otherwise fetch the record scoped
by actor (uniform NotFound when absent or hidden), then delete the metadata
row first and the MinIO object (key = record id, bucket = joined bucket name)
second.  A failing MinIO delete after a successful metadata delete surfaces
as an internal error with the metadata row already gone. -/
def deleteFile (env : DeleteEnv) (fileId : String) (actor : Actor) : DeleteOutcome :=
  match actor.userId with
  | none => ⟨.error (.forbidden .authRequiredToDelete), [], env.records⟩
  | some _ =>
    match lookupVisible env.records env.visible fileId actor with
    | none =>
      ⟨.error (.notFound (.fileNotFoundOrNotAccessible fileId)),
        [.getFile fileId], env.records⟩
    | some r =>
      if env.metaDeleteOk then
        let remaining := env.records.filter (fun x => !(x.id = fileId))
        if env.minioDeleteOk then
          ⟨.ok r.id,
            [.getFile fileId, .deleteRecord fileId, .minioDelete r.bucketName r.id],
            remaining⟩
        else
          ⟨.error (.internal .failedDelete),
            [.getFile fileId, .deleteRecord fileId, .minioDelete r.bucketName r.id],
            remaining⟩
      else
        ⟨.error (.notFound (.fileNotAccessibleForDeletion fileId)),
          [.getFile fileId, .deleteRecord fileId], env.records⟩

/-- Leading decimal digits of a character list, or none when there is no
digit, mirroring how parseInt consumes its input. -/
def leadingNat (cs : List Char) : Option Nat :=
  let ds := cs.takeWhile (fun c => c.isDigit)
  if ds.isEmpty then none
  else some (ds.foldl (fun a c => a * 10 + (c.toNat - 48)) 0)

/-- JS parseInt(s, 10): skip surrounding whitespace, accept an optional sign,
parse the maximal run of leading digits; none models NaN. -/
def jsParseInt (s : String) : Option Int :=
  match (s.trim).data with
  | '-' :: rest => (leadingNat rest).map (fun n => -(n : Int))
  | '+' :: rest => (leadingNat rest).map (fun n => (n : Int))
  | cs => (leadingNat cs).map (fun n => (n : Int))

/-- The expression `bucketMetadata.download_expiration || 300`: a null or
zero download_expiration is falsy and yields the 300-second default. -/
def defaultExpiry (de : Option Nat) : Int :=
  match de with
  | some d => if d ≠ 0 then (d : Int) else 300
  | none => 300

/-- The TTL computed by getPresignedUrl:
`expiry ? parseInt(expiry, 10) : (download_expiration || 300)`.  A present,
non-empty expiry string is truthy and is parsed (none models NaN); an absent
or empty expiry falls back to the bucket default. -/
def expirySeconds (expiry : Option String) (de : Option Nat) : Option Int :=
  match expiry with
  | some s => if s ≠ "" then jsParseInt s else some (defaultExpiry de)
  | none => some (defaultExpiry de)

/-- Environment of one getPresignedUrl request: store rows, visibility, and
the URL the object store would mint. -/
structure PresignEnv where
  records : List FileRecord
  visible : FileRecord → Actor → Bool
  buckets : List Bucket
  mintedUrl : String

/-- Result of one getPresignedUrl request. -/
structure PresignOutcome where
  result : Except HttpError String
  events : List Ev

/-- FilesController.getPresignedUrl (latest iteration): fetch the record
scoped by actor, fetch its bucket, reject with BadRequest when the bucket is
missing or presigned URLs are disabled, then ask MinIO for a presigned URL
for key = record id with the computed TTL. -/
def getPresignedUrl (env : PresignEnv) (fileId : String) (expiry : Option String)
    (actor : Actor) : PresignOutcome :=
  match lookupVisible env.records env.visible fileId actor with
  | none =>
    ⟨.error (.notFound (.fileNotFoundOrNotAccessible fileId)), [.getFile fileId]⟩
  | some r =>
    match getBucketByName env.buckets r.bucketName with
    | none =>
      ⟨.error (.badRequest (.presignedNotEnabled r.bucketName)),
        [.getFile fileId, .getBucket r.bucketName]⟩
    | some b =>
      if b.presignedUrlsEnabled then
        ⟨.ok env.mintedUrl,
          [.getFile fileId, .getBucket r.bucketName,
           .presign r.bucketName r.id (expirySeconds expiry b.downloadExpiration)]⟩
      else
        ⟨.error (.badRequest (.presignedNotEnabled r.bucketName)),
          [.getFile fileId, .getBucket r.bucketName]⟩

/-- Claims extracted from a verified JWT or from the auth-service session
introspection response: the x-hasura-user-id and role claims. -/
structure AuthClaims where
  userId : String
  roles : List String
deriving DecidableEq, Repr

/-- Resolved caller identity attached to the request by the AuthGuard. -/
structure Identity where
  userId : Option String
  roles : List String
  authenticated : Bool
deriving DecidableEq, Repr

/-- The anonymous fallback identity set by the guard when no strategy
authenticates the caller. -/
def anonymousIdentity : Identity :=
  { userId := none, roles := ["anonymous"], authenticated := false }

/-- Environment of one canActivate call: the outcome of jwt.verify against
the configured secret for any given token (none covers every verification
failure, including a missing secret), the configured auth-service URL (an
empty string is falsy), and the outcome of forwarding this request to the
session-introspection endpoint (none covers non-2xx answers, malformed
bodies and connection errors). -/
structure AuthEnv where
  jwtVerify : String → Option AuthClaims
  betterAuthApiUrl : Option String
  introspect : Option AuthClaims

/-- Result of one canActivate call: whether the guard lets the request
proceed, and the identity it attached to the request. -/
structure AuthOutcome where
  allowed : Bool
  identity : Identity
deriving DecidableEq, Repr

/-- AuthGuard.extractJwtFromHeader: a truthy authorization header starting
with the Bearer prefix yields the remainder of the header. -/
def extractJwtFromHeader (authHeader : Option String) : Option String :=
  match authHeader with
  | some h => if h ≠ "" && h.startsWith "Bearer " then some (h.drop 7) else none
  | none => none

/-- Second and third stages of AuthGuard.canActivate: when the auth-service
URL is configured (truthy), try session introspection; any failure falls
through to the anonymous identity, and the request is allowed either way. -/
def sessionPhase (env : AuthEnv) : AuthOutcome :=
  match env.betterAuthApiUrl with
  | some url =>
    if url ≠ "" then
      match env.introspect with
      | some u => ⟨true, ⟨some u.userId, u.roles, true⟩⟩
      | none => ⟨true, anonymousIdentity⟩
    else ⟨true, anonymousIdentity⟩
  | none => ⟨true, anonymousIdentity⟩

/-- AuthGuard.canActivate: try the bearer-token strategy, fall through to the
session strategy on absence or verification failure, and finally fall back
to the anonymous identity; no path rejects the request. -/
def canActivate (env : AuthEnv) (authHeader : Option String) : AuthOutcome :=
  match extractJwtFromHeader authHeader with
  | some tok =>
    match env.jwtVerify tok with
    | some claims => ⟨true, ⟨some claims.userId, claims.roles, true⟩⟩
    | none => sessionPhase env
  | none => sessionPhase env

/-- Concrete fixtures used by the witness theorems. -/
def bPlain : Bucket :=
  { id := "b-1", name := "uploads", minUploadSize := none, maxUploadSize := some 100
    allowedMimeTypes := some ["text/plain"], cacheControl := none
    downloadExpiration := some 60, presignedUrlsEnabled := true }

/-- Concrete multipart file fixture. -/
def fHello : MulterFile := { originalname := "hello.txt", size := 5, mimetype := "text/plain" }

/-- Concrete multipart file fixture above the maximum size of bPlain. -/
def fBig : MulterFile := { originalname := "big.txt", size := 101, mimetype := "text/plain" }

/-- Concrete multipart file fixture exactly at the maximum size of bPlain. -/
def fEdge : MulterFile := { originalname := "edge.txt", size := 100, mimetype := "text/plain" }

/-- Concrete authenticated actor fixture. -/
def userActor : Actor := { userId := some "u-1", roles := ["user"] }

/-- Concrete anonymous actor fixture. -/
def anonActor : Actor := { userId := none, roles := ["anonymous"] }

/-- Concrete upload environment whose object-store write succeeds. -/
def envOk : UploadEnv := { buckets := [bPlain], createdId := "rec-1", putEtag := some "etag-1" }

/-- Concrete upload environment whose object-store write fails. -/
def envPutFails : UploadEnv := { buckets := [bPlain], createdId := "rec-1", putEtag := none }

/-- Concrete confirmed file row fixture living in bPlain. -/
def recHello : FileRecord :=
  { id := "rec-1", name := "hello.txt", bucketId := "b-1", bucketName := "uploads"
    size := 5, mimeType := "text/plain", etag := some "etag-1", isUploaded := true
    uploadedByUserId := some "u-1" }

/-- Row-level policy that shows every row to every actor. -/
def visAll : FileRecord → Actor → Bool := fun _ _ => true

/-- Row-level policy that hides every row from every actor. -/
def visNone : FileRecord → Actor → Bool := fun _ _ => false

/-- Concrete delete environment where both stores succeed. -/
def delEnvOk : DeleteEnv :=
  { records := [recHello], visible := visAll, metaDeleteOk := true, minioDeleteOk := true }

/-- Concrete bucket with only a minimum upload size configured. -/
def bMinOnly : Bucket :=
  { id := "b-3", name := "minb", minUploadSize := some 10, maxUploadSize := none
    allowedMimeTypes := none, cacheControl := none, downloadExpiration := none
    presignedUrlsEnabled := true }

/-- Concrete file below the minimum size of bMinOnly. -/
def fTiny : MulterFile := { originalname := "tiny.txt", size := 1, mimetype := "text/plain" }

/-- Concrete upload environment for the bucket with a minimum size. -/
def envMin : UploadEnv := { buckets := [bMinOnly], createdId := "rec-2", putEtag := some "etag-2" }

/-- True exactly on successful results. -/
def isOkResult : Except HttpError FileRecord → Bool
  | .ok _ => true
  | .error _ => false

/-- Concrete bucket whose download_expiration is set to zero. -/
def bZeroExp : Bucket :=
  { id := "b-4", name := "zb", minUploadSize := none, maxUploadSize := none
    allowedMimeTypes := none, cacheControl := none, downloadExpiration := some 0
    presignedUrlsEnabled := true }

/-- Concrete file row living in bZeroExp. -/
def recZb : FileRecord :=
  { id := "rec-9", name := "z.txt", bucketId := "b-4", bucketName := "zb"
    size := 3, mimeType := "text/plain", etag := some "etag-9", isUploaded := true
    uploadedByUserId := none }

/-- Concrete presign environment over bZeroExp. -/
def penvZero : PresignEnv :=
  { records := [recZb], visible := visAll, buckets := [bZeroExp], mintedUrl := "u" }

/-- C1: for every upload request that passes bucket-policy validation, the
orchestrator first issues the metadata insert of a FileRecord with
isUploaded = false and only then the object-store write, and the key of that
write is the created record id (the store-assigned id, not the client
file name). -/
theorem upload_creates_record_before_object_write
    (env : UploadEnv) (records0 : List FileRecord) (f : MulterFile) (actor : Actor)
    (bname : String) (b : Bucket)
    (hb : getBucketByName env.buckets bname = some b)
    (hmax : maxSizeRejects b f.size = false)
    (hmime : mimeRejects b f.mimetype = false) :
    ∃ r : FileRecord,
      (uploadFile env records0 (some f) actor bname).events.take 3 =
        [Ev.getBucket bname, Ev.insertRecord r,
         Ev.minioPut bname r.id f.size f.mimetype] ∧
      r.isUploaded = false ∧ r.id = env.createdId := by
  refine ⟨pendingRecord env f actor bname b, ?_, rfl, rfl⟩
  unfold uploadFile
  rw [hb]
  simp only [hmax, hmime, Bool.false_eq_true, if_false]
  cases hput : env.putEtag <;> simp [pendingRecord]

/-- C1 witness: a concrete upload passing validation. -/
theorem upload_creates_record_before_object_write_witness :
    getBucketByName envOk.buckets "uploads" = some bPlain ∧
    maxSizeRejects bPlain fHello.size = false ∧
    mimeRejects bPlain fHello.mimetype = false ∧
    ∃ r : FileRecord,
      (uploadFile envOk [] (some fHello) userActor "uploads").events.take 3 =
        [Ev.getBucket "uploads", Ev.insertRecord r,
         Ev.minioPut "uploads" r.id fHello.size fHello.mimetype] ∧
      r.isUploaded = false ∧ r.id = envOk.createdId :=
  ⟨by decide, by decide, by decide,
    upload_creates_record_before_object_write envOk [] fHello userActor "uploads" bPlain
      (by decide) (by decide) (by decide)⟩

/-- C2: when the object-store write fails, the confirmation update is never
issued, the operation surfaces an internal error, and the created record
stays in the store with isUploaded = false (no rollback). -/
theorem upload_put_failure_leaves_pending_record
    (env : UploadEnv) (records0 : List FileRecord) (f : MulterFile) (actor : Actor)
    (bname : String) (b : Bucket)
    (hb : getBucketByName env.buckets bname = some b)
    (hmax : maxSizeRejects b f.size = false)
    (hmime : mimeRejects b f.mimetype = false)
    (hput : env.putEtag = none) :
    (uploadFile env records0 (some f) actor bname).result =
        .error (.internal .failedUpload) ∧
    (∀ e ∈ (uploadFile env records0 (some f) actor bname).events,
        e.isUpdateRecord = false) ∧
    ∃ r : FileRecord,
      (uploadFile env records0 (some f) actor bname).records = records0 ++ [r] ∧
      r.isUploaded = false ∧ r.id = env.createdId := by
  unfold uploadFile
  rw [hb]
  simp only [hmax, hmime, Bool.false_eq_true, if_false, hput]
  refine ⟨trivial, ?_, ⟨pendingRecord env f actor bname b, rfl, rfl, rfl⟩⟩
  intro e he
  simp only [List.mem_cons, List.not_mem_nil, or_false] at he
  rcases he with h | h | h <;> subst h <;> rfl

/-- C2 witness: a concrete upload whose object-store write fails. -/
theorem upload_put_failure_leaves_pending_record_witness :
    envPutFails.putEtag = none ∧
    ((uploadFile envPutFails [] (some fHello) userActor "uploads").result =
        .error (.internal .failedUpload) ∧
    (∀ e ∈ (uploadFile envPutFails [] (some fHello) userActor "uploads").events,
        e.isUpdateRecord = false) ∧
    ∃ r : FileRecord,
      (uploadFile envPutFails [] (some fHello) userActor "uploads").records = [] ++ [r] ∧
      r.isUploaded = false ∧ r.id = envPutFails.createdId) :=
  ⟨rfl,
    upload_put_failure_leaves_pending_record envPutFails [] fHello userActor "uploads"
      bPlain (by decide) (by decide) (by decide) rfl⟩

/-- C3: every validation rejection (missing file, oversized file, disallowed
MIME type) surfaces as a BadRequest, inserts no FileRecord, and issues no
object-store call; the metadata-store contents are unchanged. -/
theorem upload_validation_rejection_creates_no_state
    (env : UploadEnv) (records0 : List FileRecord) (file? : Option MulterFile)
    (actor : Actor) (bname : String)
    (hrej : file? = none ∨
      ∃ f b, file? = some f ∧ getBucketByName env.buckets bname = some b ∧
        (maxSizeRejects b f.size = true ∨
         (maxSizeRejects b f.size = false ∧ mimeRejects b f.mimetype = true))) :
    (∃ m, (uploadFile env records0 file? actor bname).result = .error (.badRequest m)) ∧
    (uploadFile env records0 file? actor bname).records = records0 ∧
    ∀ e ∈ (uploadFile env records0 file? actor bname).events,
      e.isObjectStoreCall = false ∧ e.isInsertRecord = false := by
  rcases hrej with h | ⟨f, b, hf, hb, hgate⟩
  · subst h
    exact ⟨⟨.noFileUploaded, rfl⟩, rfl, by simp [uploadFile]⟩
  · subst hf
    unfold uploadFile
    rw [hb]
    rcases hgate with hmax | ⟨hmax, hmime⟩
    · simp only [hmax, if_true]
      refine ⟨⟨_, rfl⟩, by trivial, ?_⟩
      intro e he
      simp only [List.mem_cons, List.not_mem_nil, or_false] at he
      subst he
      exact ⟨rfl, rfl⟩
    · simp only [hmax, hmime, Bool.false_eq_true, if_false, if_true]
      refine ⟨⟨_, rfl⟩, by trivial, ?_⟩
      intro e he
      simp only [List.mem_cons, List.not_mem_nil, or_false] at he
      subst he
      exact ⟨rfl, rfl⟩

/-- C3 witness: a concrete oversized upload is rejected with no state. -/
theorem upload_validation_rejection_creates_no_state_witness :
    (some fBig = (none : Option MulterFile) ∨
      ∃ f b, some fBig = some f ∧ getBucketByName envOk.buckets "uploads" = some b ∧
        (maxSizeRejects b f.size = true ∨
         (maxSizeRejects b f.size = false ∧ mimeRejects b f.mimetype = true))) ∧
    ((∃ m, (uploadFile envOk [] (some fBig) userActor "uploads").result =
        .error (.badRequest m)) ∧
    (uploadFile envOk [] (some fBig) userActor "uploads").records = [] ∧
    ∀ e ∈ (uploadFile envOk [] (some fBig) userActor "uploads").events,
      e.isObjectStoreCall = false ∧ e.isInsertRecord = false) :=
  ⟨Or.inr ⟨fBig, bPlain, rfl, by decide, Or.inl (by decide)⟩,
    upload_validation_rejection_creates_no_state envOk [] (some fBig) userActor "uploads"
      (Or.inr ⟨fBig, bPlain, rfl, by decide, Or.inl (by decide)⟩)⟩

/-- C10: the maximum-size gate rejects exactly when max_upload_size is a set,
non-zero value strictly smaller than the file size; an upload of exactly the
maximum size is accepted, and max_upload_size = 0 imposes no limit. -/
theorem upload_max_size_gate_exact
    (env : UploadEnv) (records0 : List FileRecord) (f : MulterFile) (actor : Actor)
    (bname : String) (b : Bucket)
    (hb : getBucketByName env.buckets bname = some b) :
    (uploadFile env records0 (some f) actor bname).result =
        .error (.badRequest (.sizeExceedsMax (b.maxUploadSize.getD 0))) ↔
      ∃ m, b.maxUploadSize = some m ∧ m ≠ 0 ∧ m < f.size := by
  have hgate : maxSizeRejects b f.size = true ↔
      ∃ m, b.maxUploadSize = some m ∧ m ≠ 0 ∧ m < f.size := by
    unfold maxSizeRejects
    cases hm : b.maxUploadSize with
    | none => simp
    | some m => simp [bne_iff_ne]
  unfold uploadFile
  rw [hb]
  by_cases hmax : maxSizeRejects b f.size = true
  · simp only [hmax, if_true]
    simpa using hgate.mp hmax
  · have hmax' : maxSizeRejects b f.size = false := by
      exact Bool.not_eq_true _ ▸ (by simpa using hmax)
    simp only [hmax', Bool.false_eq_true, if_false]
    rw [← hgate]
    by_cases hmime : mimeRejects b f.mimetype = true
    · simp [hmime, hmax']
    · have hmime' : mimeRejects b f.mimetype = false := by
        simpa using hmime
      simp only [hmime', Bool.false_eq_true, if_false]
      cases hput : env.putEtag <;> simp [hmax']

/-- C10 witness: with max_upload_size = 100, an upload of exactly 100 bytes
is not rejected for size. -/
theorem upload_max_size_gate_exact_witness :
    ((uploadFile envOk [] (some fEdge) userActor "uploads").result =
        .error (.badRequest (.sizeExceedsMax (bPlain.maxUploadSize.getD 0))) ↔
      ∃ m, bPlain.maxUploadSize = some m ∧ m ≠ 0 ∧ m < fEdge.size) :=
  upload_max_size_gate_exact envOk [] fEdge userActor "uploads" bPlain (by decide)

/-- C4: a delete request whose resolved actor has no userId fails with
Forbidden before any lookup: the trace of store calls is empty and the
metadata store is untouched. -/
theorem delete_rejects_anonymous_before_any_lookup
    (env : DeleteEnv) (fileId : String) (actor : Actor)
    (h : actor.userId = none) :
    (deleteFile env fileId actor).result = .error (.forbidden .authRequiredToDelete) ∧
    (deleteFile env fileId actor).events = [] ∧
    (deleteFile env fileId actor).records = env.records := by
  unfold deleteFile
  rw [h]
  exact ⟨rfl, rfl, rfl⟩

/-- C4 witness: a concrete anonymous delete request. -/
theorem delete_rejects_anonymous_before_any_lookup_witness :
    anonActor.userId = none ∧
    ((deleteFile delEnvOk "rec-1" anonActor).result =
        .error (.forbidden .authRequiredToDelete) ∧
    (deleteFile delEnvOk "rec-1" anonActor).events = [] ∧
    (deleteFile delEnvOk "rec-1" anonActor).records = delEnvOk.records) :=
  ⟨rfl, delete_rejects_anonymous_before_any_lookup delEnvOk "rec-1" anonActor rfl⟩

/-- C6: in the delete flow the metadata-row deletion is attempted before the
object-store deletion: wherever a MinIO delete appears in the trace, a
metadata delete for the fetched record occurs strictly earlier. -/
theorem delete_metadata_row_before_object_delete
    (env : DeleteEnv) (fileId : String) (actor : Actor) (i : Nat) (bkt key : String)
    (h : (deleteFile env fileId actor).events.get? i = some (.minioDelete bkt key)) :
    ∃ j, j < i ∧
      (deleteFile env fileId actor).events.get? j = some (.deleteRecord fileId) := by
  revert h
  unfold deleteFile
  cases actor.userId with
  | none => intro h; simp at h
  | some u =>
    cases lookupVisible env.records env.visible fileId actor with
    | none =>
      intro h
      rcases i with _ | i <;> simp at h
    | some r =>
      cases env.metaDeleteOk with
      | false =>
        intro h
        rcases i with _ | _ | i <;> simp at h
      | true =>
        cases env.minioDeleteOk <;>
          · intro h
            rcases i with _ | _ | _ | i <;> simp at h
            exact ⟨1, by omega, rfl⟩

/-- C6 witness: a concrete authorized delete issues the metadata delete at
position 1 and the object delete at position 2 of the trace. -/
theorem delete_metadata_row_before_object_delete_witness :
    (deleteFile delEnvOk "rec-1" userActor).events.get? 2 =
        some (.minioDelete "uploads" "rec-1") ∧
    ∃ j, j < 2 ∧
      (deleteFile delEnvOk "rec-1" userActor).events.get? j =
        some (.deleteRecord "rec-1") :=
  ⟨by decide,
    delete_metadata_row_before_object_delete delEnvOk "rec-1" userActor 2
      "uploads" "rec-1" (by decide)⟩

/-- The session phase of the guard allows the request in every case. -/
theorem sessionPhase_allowed (env : AuthEnv) : (sessionPhase env).allowed = true := by
  unfold sessionPhase
  cases hu : env.betterAuthApiUrl with
  | none => rfl
  | some url =>
    rcases eq_or_ne url "" with h | h
    · simp [h]
    · simp only [ne_eq, h, not_false_eq_true, if_true]
      cases env.introspect <;> rfl

/-- When the session strategy does not authenticate, the session phase falls
back to the anonymous identity. -/
theorem sessionPhase_anonymous (env : AuthEnv)
    (hs : ∀ url, env.betterAuthApiUrl = some url → url ≠ "" → env.introspect = none) :
    (sessionPhase env).identity = anonymousIdentity := by
  unfold sessionPhase
  cases hu : env.betterAuthApiUrl with
  | none => rfl
  | some url =>
    rcases eq_or_ne url "" with h | h
    · simp [h]
    · simp only [ne_eq, h, not_false_eq_true, if_true, hs url hu h]

/-- C5: actor resolution always lets the request proceed, and when the
bearer token is absent or fails verification and the remote-session strategy
does not authenticate, the resolved identity is the anonymous one (no user
id, roles = [anonymous], not authenticated). -/
theorem actor_resolution_never_rejects_falls_back_to_anonymous
    (env : AuthEnv) (authHeader : Option String) :
    (canActivate env authHeader).allowed = true ∧
    ((∀ tok, extractJwtFromHeader authHeader = some tok → env.jwtVerify tok = none) →
      (∀ url, env.betterAuthApiUrl = some url → url ≠ "" → env.introspect = none) →
      (canActivate env authHeader).identity = anonymousIdentity) := by
  constructor
  · unfold canActivate
    cases hx : extractJwtFromHeader authHeader with
    | none => exact sessionPhase_allowed env
    | some tok =>
      cases hv : env.jwtVerify tok with
      | none =>
        simp only [hv]
        exact sessionPhase_allowed env
      | some c => simp only [hv]
  · intro hjwt hs
    unfold canActivate
    cases hx : extractJwtFromHeader authHeader with
    | none => exact sessionPhase_anonymous env hs
    | some tok =>
      simp only [hjwt tok hx]
      exact sessionPhase_anonymous env hs

/-- C5 witness: a request with an invalid bearer token, a configured auth
service that does not recognise the session, resolves to anonymous and is
allowed. -/
theorem actor_resolution_never_rejects_falls_back_to_anonymous_witness :
    (canActivate
        { jwtVerify := fun _ => none, betterAuthApiUrl := some "http://auth:3000"
          introspect := none }
        (some "Bearer bad")).allowed = true ∧
    ((∀ tok, extractJwtFromHeader (some "Bearer bad") = some tok →
        (fun (_ : String) => (none : Option AuthClaims)) tok = none) →
      (∀ url, (some "http://auth:3000" : Option String) = some url → url ≠ "" →
        (none : Option AuthClaims) = none) →
      (canActivate
        { jwtVerify := fun _ => none, betterAuthApiUrl := some "http://auth:3000"
          introspect := none }
        (some "Bearer bad")).identity = anonymousIdentity) :=
  actor_resolution_never_rejects_falls_back_to_anonymous
    { jwtVerify := fun _ => none, betterAuthApiUrl := some "http://auth:3000"
      introspect := none }
    (some "Bearer bad")

/-- C8: a metadata fetch for a record that does not exist and one for a
record hidden from the actor produce the same outward NotFound error, which
depends only on the requested id. -/
theorem metadata_fetch_not_found_indistinguishable
    (recs1 recs2 : List FileRecord) (vis1 vis2 : FileRecord → Actor → Bool)
    (a1 a2 : Actor) (fid : String)
    (h1 : lookupVisible recs1 vis1 fid a1 = none)
    (h2 : lookupVisible recs2 vis2 fid a2 = none) :
    getFileMetadata recs1 vis1 fid a1 = getFileMetadata recs2 vis2 fid a2 ∧
    getFileMetadata recs1 vis1 fid a1 =
      .error (.notFound (.fileNotFoundOrNotAccessible fid)) := by
  unfold getFileMetadata
  rw [h1, h2]
  exact ⟨rfl, rfl⟩

/-- C8 witness: an empty store versus a store whose only row is hidden by
policy give the same NotFound answer. -/
theorem metadata_fetch_not_found_indistinguishable_witness :
    getFileMetadata [] visAll "rec-1" userActor =
      getFileMetadata [recHello] visNone "rec-1" userActor ∧
    getFileMetadata [] visAll "rec-1" userActor =
      .error (.notFound (.fileNotFoundOrNotAccessible "rec-1")) :=
  metadata_fetch_not_found_indistinguishable [] [recHello] visAll visNone
    userActor userActor "rec-1" (by decide) (by decide)

/-- C7 counterexample: with minUploadSize = 10 configured on the bucket, an
upload of 1 byte is not rejected: the orchestrator accepts it and returns a
successful result, because the source enforces no minimum-size rule. -/
theorem upload_below_minimum_size_accepted :
    bMinOnly.minUploadSize = some 10 ∧ fTiny.size < 10 ∧
    isOkResult (uploadFile envMin [] (some fTiny) userActor "minb").result = true := by
  decide

/-- C7 amended: the policy rules actually evaluated are maximum size first,
then MIME type, first violation winning; no minimum-size rule exists, so an
upload whose size is below a configured minUploadSize still proceeds to the
metadata insert whenever the other two gates pass. -/
theorem upload_policy_rules_max_then_mime_no_min
    (env : UploadEnv) (records0 : List FileRecord) (f : MulterFile) (actor : Actor)
    (bname : String) (b : Bucket)
    (hb : getBucketByName env.buckets bname = some b) :
    (maxSizeRejects b f.size = true →
      (uploadFile env records0 (some f) actor bname).result =
        .error (.badRequest (.sizeExceedsMax (b.maxUploadSize.getD 0)))) ∧
    (maxSizeRejects b f.size = false → mimeRejects b f.mimetype = true →
      (uploadFile env records0 (some f) actor bname).result =
        .error (.badRequest (.mimeNotAllowed f.mimetype))) ∧
    (maxSizeRejects b f.size = false → mimeRejects b f.mimetype = false →
      ∃ r, (uploadFile env records0 (some f) actor bname).events.get? 1 =
        some (.insertRecord r)) := by
  refine ⟨?_, ?_, ?_⟩
  · intro hmax
    unfold uploadFile
    rw [hb]
    simp [hmax]
  · intro hmax hmime
    unfold uploadFile
    rw [hb]
    simp [hmax, hmime]
  · intro hmax hmime
    refine ⟨pendingRecord env f actor bname b, ?_⟩
    unfold uploadFile
    rw [hb]
    simp only [hmax, hmime, Bool.false_eq_true, if_false]
    cases hput : env.putEtag <;> rfl

/-- C7 amended witness: a concrete upload below the configured minimum
passes both actual gates and reaches the metadata insert. -/
theorem upload_policy_rules_max_then_mime_no_min_witness :
    maxSizeRejects bMinOnly fTiny.size = false ∧
    mimeRejects bMinOnly fTiny.mimetype = false ∧
    ∃ r, (uploadFile envMin [] (some fTiny) userActor "minb").events.get? 1 =
      some (.insertRecord r) :=
  ⟨by decide, by decide,
    (upload_policy_rules_max_then_mime_no_min envMin [] fTiny userActor "minb"
      bMinOnly (by decide)).2.2 (by decide) (by decide)⟩

/-- C9 counterexample: with no expiry parameter and download_expiration set
to 0, the TTL passed to the object store is 300, not the bucket value 0: a
zero download_expiration is falsy and falls through to the default. -/
theorem presign_ttl_zero_download_expiration_gives_default :
    bZeroExp.downloadExpiration = some 0 ∧
    (getPresignedUrl penvZero "rec-9" none anonActor).events.get? 2 =
      some (.presign "zb" "rec-9" (some 300)) ∧
    (300 : Int) ≠ 0 := by
  decide

/-- C9 amended: the TTL passed to the object store is parseInt(expiry) when
the expiry parameter is present and non-empty; otherwise download_expiration
when set and non-zero; otherwise 300 (both a missing and a zero
download_expiration fall back to 300, and an empty expiry string counts as
absent). -/
theorem presign_ttl_computation
    (env : PresignEnv) (fileId : String) (expiry : Option String) (actor : Actor)
    (r : FileRecord) (b : Bucket)
    (hr : lookupVisible env.records env.visible fileId actor = some r)
    (hb : getBucketByName env.buckets r.bucketName = some b)
    (hen : b.presignedUrlsEnabled = true) :
    (getPresignedUrl env fileId expiry actor).events.get? 2 =
      some (.presign r.bucketName r.id (expirySeconds expiry b.downloadExpiration)) ∧
    (∀ s, expiry = some s → s ≠ "" →
      expirySeconds expiry b.downloadExpiration = jsParseInt s) ∧
    ((expiry = none ∨ expiry = some "") →
      ∀ d, b.downloadExpiration = some d → d ≠ 0 →
        expirySeconds expiry b.downloadExpiration = some (d : Int)) ∧
    ((expiry = none ∨ expiry = some "") →
      (b.downloadExpiration = none ∨ b.downloadExpiration = some 0) →
        expirySeconds expiry b.downloadExpiration = some 300) := by
  refine ⟨?_, ?_, ?_, ?_⟩
  · unfold getPresignedUrl
    simp only [hr, hb, hen]
    rfl
  · intro s hs hne
    subst hs
    unfold expirySeconds
    simp only [ne_eq, hne, not_false_eq_true, if_true]
  · intro hexp d hd hdne
    have hdefault : expirySeconds expiry b.downloadExpiration =
        some (defaultExpiry b.downloadExpiration) := by
      rcases hexp with h | h <;> subst h <;> simp [expirySeconds]
    rw [hdefault]
    unfold defaultExpiry
    simp only [hd, ne_eq, hdne, not_false_eq_true, if_true]
  · intro hexp hde
    have hdefault : expirySeconds expiry b.downloadExpiration =
        some (defaultExpiry b.downloadExpiration) := by
      rcases hexp with h | h <;> subst h <;> simp [expirySeconds]
    rw [hdefault]
    rcases hde with h | h <;> simp [defaultExpiry, h]

/-- C9 amended witness: a concrete request with expiry 60 on a bucket whose
download_expiration is zero. -/
theorem presign_ttl_computation_witness :
    lookupVisible penvZero.records penvZero.visible "rec-9" anonActor = some recZb ∧
    (getPresignedUrl penvZero "rec-9" (some "60") anonActor).events.get? 2 =
      some (.presign recZb.bucketName recZb.id
        (expirySeconds (some "60") bZeroExp.downloadExpiration)) ∧
    expirySeconds (some "60") bZeroExp.downloadExpiration = jsParseInt "60" :=
  ⟨by decide,
    (presign_ttl_computation penvZero "rec-9" (some "60") anonActor recZb bZeroExp
      (by decide) (by decide) (by decide)).1,
    (presign_ttl_computation penvZero "rec-9" (some "60") anonActor recZb bZeroExp
      (by decide) (by decide) (by decide)).2.1 "60" rfl (by decide)⟩

end StorageService
